import Mathlib

/-!
Verification development for the craft-providers archive: a shallow
embedding of the executor contract, the multipass provider and the
linux executor actions, with theorems settling the specified behavior
of each component against the source.
-/

set_option autoImplicit false

namespace CraftProviders

/-! ## Python runtime primitives

Python exceptions and subprocess results are embedded explicitly:
fallible code returns `Except PyErr`, and a completed subprocess is its
exit code together with its captured standard output. -/

/-- Python exceptions raised by the embedded code. -/
inductive PyErr where
  | calledProcessError (returncode : Int) (cmd : List String)
  | typeError (msg : String)
  | attributeError (name : String)
  | fileNotFoundError (msg : String)
  | compatibilityError (reason : String)
  | multipassInstallerError (reason : String)
  | valueError (msg : String)
  | indexError (msg : String)
deriving DecidableEq, Repr

/-- Result of `subprocess.run` with captured output. -/
structure CompletedProcess where
  returncode : Int
  stdout : String
deriving DecidableEq, Repr

/-- Helper for `pySplitWhitespace`: accumulate the current token (reversed)
while scanning the character list. -/
def splitWsAux : List Char → List Char → List String
  | [], acc => if acc.isEmpty then [] else [String.mk acc.reverse]
  | c :: cs, acc =>
    if c.isWhitespace then
      if acc.isEmpty then splitWsAux cs []
      else String.mk acc.reverse :: splitWsAux cs []
    else splitWsAux cs (c :: acc)

/-- Python `str.split()` with no argument: split on runs of whitespace,
discarding empty tokens. -/
def pySplitWhitespace (s : String) : List String :=
  splitWsAux s.data []

/-- Helper for `pySplitDot`: accumulate the current field (reversed). -/
def splitDotAux : List Char → List Char → List String
  | [], acc => [String.mk acc.reverse]
  | c :: cs, acc =>
    if c = '.' then String.mk acc.reverse :: splitDotAux cs []
    else splitDotAux cs (c :: acc)

/-- Python `str.split(".")`: split on every dot, keeping empty fields. -/
def pySplitDot (s : String) : List String :=
  splitDotAux s.data []

/-- Drop leading whitespace characters. -/
def dropLeadingWs : List Char → List Char
  | [] => []
  | c :: cs => if c.isWhitespace then dropLeadingWs cs else c :: cs

/-- Python `str.strip()`: remove leading and trailing whitespace. -/
def pyStrip (s : String) : String :=
  String.mk (dropLeadingWs (dropLeadingWs s.data.reverse).reverse)

/-- Value of a decimal digit character, if it is one. -/
def digitVal? (c : Char) : Option Nat :=
  if '0' ≤ c ∧ c ≤ '9' then some (c.toNat - '0'.toNat) else none

/-- Helper for `pyParseNat`: fold decimal digits left to right. -/
def parseDigitsAux : List Char → Nat → Option Nat
  | [], acc => some acc
  | c :: cs, acc =>
    match digitVal? c with
    | some d => parseDigitsAux cs (acc * 10 + d)
    | none => none

/-- Parse a nonempty all-digit string as a natural number (the numeric
strings accepted by Python `int`/`float` components as they occur in
version numbers; signs, spaces and exponents are not modelled, which is
sufficient for every input considered here). -/
def pyParseNat (s : String) : Option Nat :=
  match s.data with
  | [] => none
  | c :: cs => parseDigitsAux (c :: cs) 0

/-- Python `str.join` is a bound method taking exactly one iterable
argument; a call with any other number of positional arguments raises
TypeError before anything else happens.  When called correctly with a
single string argument, it joins the characters of that string. -/
def str_join (sep : String) (args : List String) : Except PyErr String :=
  match args with
  | [iterable] =>
      Except.ok (String.intercalate sep (iterable.data.map (fun c => String.mk [c])))
  | _ => Except.error (PyErr.typeError "join() takes exactly one argument")

/-- Python keyword-argument binding for a call that passes only keyword
arguments: every keyword passed must name a declared parameter of the
callee, otherwise the call raises TypeError. -/
def bindKeywords (params kwargs : List String) : Except PyErr Unit :=
  if kwargs.all (fun k => params.contains k) then Except.ok ()
  else Except.error (PyErr.typeError "unexpected keyword argument")

/-- Python attribute read on an object whose set attribute names are
`attrs`: reading a name that was never set raises AttributeError. -/
def getattr_ (attrs : List String) (name : String) : Except PyErr Unit :=
  if attrs.contains name then Except.ok ()
  else Except.error (PyErr.attributeError name)

/-! ## Executor contract (src/craft_providers/executor.py)

An executor's remote behavior is embedded as a function from the
command vector to the completed process it would produce.  This models
the documented contract of `Executor.execute_run` (executor.py lines
68-83): run the command; when `check` is true and the exit status is
non-zero, raise `subprocess.CalledProcessError`. -/

/-- Contract of `Executor.execute_run` over an abstract remote world. -/
def Executor.execute_run (world : List String → CompletedProcess) (command : List String)
    (check : Bool) : Except PyErr CompletedProcess :=
  let proc := world command
  if check && (proc.returncode != 0) then
    Except.error (PyErr.calledProcessError proc.returncode command)
  else
    Except.ok proc

/-- Model of `Executor.is_target_directory` (executor.py lines 119-127; the
identical free function is `is_target_directory` in actions/linux.py lines
217-225): run `test -d path` through `self.execute_run` and compare the
exit code with 0.  The source passes no `check` argument, so `check`
takes its declared default `True`. -/
def Executor.is_target_directory (world : List String → CompletedProcess)
    (target : String) : Except PyErr Bool :=
  match Executor.execute_run world ["test", "-d", target] true with
  | Except.error e => Except.error e
  | Except.ok proc => Except.ok (proc.returncode == 0)

/-- Model of `Executor.is_target_file` (executor.py lines 129-137; likewise
`is_target_file` in actions/linux.py lines 228-236): run `test -f path`
with `check` left at its default `True`. -/
def Executor.is_target_file (world : List String → CompletedProcess)
    (target : String) : Except PyErr Bool :=
  match Executor.execute_run world ["test", "-f", target] true with
  | Except.error e => Except.error e
  | Except.ok proc => Except.ok (proc.returncode == 0)

/-! ## Craft image configuration (src/craft_providers/actions/craft_config.py) -/

/-- Model of `load_craft_config` (craft_config.py lines 29-41): run
`cat /etc/craft-image.conf` with `check=True`; the surrounding
`try/except subprocess.CalledProcessError` turns a failing read into the
result `None`; on success the captured stdout is handed to `yaml.load`,
embedded as the abstract parameter `yamlLoad` (yaml.SafeLoader can yield
`None` for an empty document, hence the `Option` codomain). -/
def load_craft_config {α : Type} (yamlLoad : String → Option α)
    (world : List String → CompletedProcess) : Except PyErr (Option α) :=
  match Executor.execute_run world ["cat", "/etc/craft-image.conf"] true with
  | Except.error (PyErr.calledProcessError _ _) => Except.ok none
  | Except.error e => Except.error e
  | Except.ok proc => Except.ok (yamlLoad proc.stdout)

/-! ## Readiness poller (src/craft_providers/actions/linux.py) -/

/-- One poll attempt of `wait_for_system_ready` (linux.py lines 287-303):
run `systemctl is-system-running` with `check=False` (so no exception is
possible), strip the captured stdout, and succeed exactly when the exit
code is 0 and the stripped state is in `["running", "degraded"]`.  The
remote behavior may differ between attempts, so the world is indexed by
the attempt number. -/
def system_ready_attempt (world : Nat → CompletedProcess) (i : Nat) : Bool :=
  let proc := world i
  (proc.returncode == 0) && (["running", "degraded"].contains (pyStrip proc.stdout))

/-- Loop of `wait_for_system_ready` (linux.py lines 287-307): `attempt` is
the index of the next poll, the second argument the remaining budget.
Returns the total number of poll attempts performed and whether the loop
exited through `break`; the for-else exhaustion branch only logs a
warning and returns normally (the 0.5s sleeps have no other observable
effect and are not modelled). -/
def wait_for_system_ready_loop (world : Nat → CompletedProcess) :
    Nat → Nat → Nat × Bool
  | attempt, 0 => (attempt, false)
  | attempt, fuel + 1 =>
    if system_ready_attempt world attempt then (attempt + 1, true)
    else wait_for_system_ready_loop world (attempt + 1) fuel

/-- Model of `wait_for_system_ready` (linux.py lines 277-307) with its
`retry_count` parameter (declared default 120). -/
def wait_for_system_ready (world : Nat → CompletedProcess) (retry_count : Nat) :
    Nat × Bool :=
  wait_for_system_ready_loop world 0 retry_count

/-! ## Directory synchronization engine (src/craft_providers/actions/linux.py) -/

/-- Observable steps taken by `directory_sync_to_remote`. -/
inductive SyncEvent where
  | remoteRun (command : List String)
  | hostPopen (command : List String)
  | remotePopen (command : List String)
  | closeProducerStdout
  | waitConsumer (returncode : Int)
deriving DecidableEq, Repr

/-- World for a sync run: the executor's `execute_run` behavior plus the
exit code with which the consumer tar process eventually terminates. -/
structure SyncWorld where
  remoteRun : List String → CompletedProcess
  consumerReturncode : Int

/-- Model of `directory_sync_to_remote` (linux.py lines 71-108): optionally
`rm -rf` the destination and `mkdir -p` it (both through `execute_run`
with `check=True`), start the host tar producer, start the remote tar
consumer reading from the pipe, close the producer's stdout handle, then
`communicate()` with the consumer — which blocks until the consumer
terminates but inspects neither its exit code nor the producer's; the
function then returns normally.  The paired trace records each step. -/
def directory_sync_to_remote (world : SyncWorld)
    (host_tar_cmd target_tar_cmd source destination : String) (delete : Bool) :
    List SyncEvent × Except PyErr Unit :=
  let rmCmd := ["rm", "-rf", destination]
  let step1 : List SyncEvent × Except PyErr Unit :=
    if delete then
      match Executor.execute_run world.remoteRun rmCmd true with
      | Except.error e => ([SyncEvent.remoteRun rmCmd], Except.error e)
      | Except.ok _ => ([SyncEvent.remoteRun rmCmd], Except.ok ())
    else ([], Except.ok ())
  match step1 with
  | (tr, Except.error e) => (tr, Except.error e)
  | (tr, Except.ok _) =>
    let mkdirCmd := ["mkdir", "-p", destination]
    match Executor.execute_run world.remoteRun mkdirCmd true with
    | Except.error e => (tr ++ [SyncEvent.remoteRun mkdirCmd], Except.error e)
    | Except.ok _ =>
      let producerCmd := [host_tar_cmd, "cpf", "-", "-C", source, "."]
      let consumerCmd := [target_tar_cmd, "xpvf", "-", "-C", destination]
      (tr ++ [SyncEvent.remoteRun mkdirCmd,
              SyncEvent.hostPopen producerCmd,
              SyncEvent.remotePopen consumerCmd,
              SyncEvent.closeProducerStdout,
              SyncEvent.waitConsumer world.consumerReturncode],
       Except.ok ())

/-! ## Multipass CLI wrapper (src/craft_providers/multipass/multipass.py) -/

/-- Host argument vector built by `Multipass.execute` (multipass.py line
102): `run_command = [multipass_path, "exec", instance, "--", *command]`. -/
def Multipass.execute_argv (multipass_path instance_name : String)
    (command : List String) : List String :=
  [multipass_path, "exec", instance_name, "--"] ++ command

/-- Declared keyword parameters of `Multipass.stop` (multipass.py line 193):
`instance` and `time`. -/
def Multipass.stop_params : List String := ["instance", "time"]

/-! ## Multipass instance (src/craft_providers/multipass/multipass_instance.py) -/

/-- Model of `MultipassInstance.execute_run` (multipass_instance.py lines
121-143).  The body reassigns `command` to the fixed list
`["sudo", "-H", "/root", "--"]` before forwarding, discarding the
caller-supplied argument vector, and forwards it together with `check`
to the multipass exec CLI.  Modelled from the spec: the callee
`self.multipass.exec` is missing from src (only this caller is present);
per spec section 6 the VM-manager CLI is invoked for exec, with the same
argv shape as `Multipass.execute` (multipass.py line 102), running it
through `subprocess.run` with the given `check`.  Returns the host argv
invoked together with the run's outcome over the given world. -/
def MultipassInstance.execute_run (world : List String → CompletedProcess)
    (multipass_path name : String) (command : List String) (check : Bool) :
    List String × Except PyErr CompletedProcess :=
  let command := ["sudo", "-H", "/root", "--"]
  let run_command := Multipass.execute_argv multipass_path name command
  (run_command, Executor.execute_run world run_command check)

/-- Observable steps of `MultipassInstance.create_file`. -/
inductive FileEvent where
  | transferFromIo (content destination : String)
  | executeRun (command : List String)
deriving DecidableEq, Repr

/-- Model of `MultipassInstance.create_file` (multipass_instance.py lines
54-92).  The staging path is computed as
`"/".join("/tmp", destination.as_posix().replace("/", "_"))` — a
two-argument call to `str.join`, which raises TypeError before any
transfer or command runs.  On the (unreachable) success path the model
records the staging transfer and the chown/chmod/mv calls the source
would then issue. -/
def MultipassInstance.create_file (name destination content file_mode : String)
    (gid uid : Nat) : Except PyErr (List FileEvent) :=
  match str_join "/" ["/tmp", destination.replace "/" "_"] with
  | Except.error e => Except.error e
  | Except.ok tmp_file_path =>
    Except.ok
      [FileEvent.transferFromIo content (name ++ ":" ++ tmp_file_path),
       FileEvent.executeRun
         ["sudo", "chown", toString uid ++ ":" ++ toString gid, tmp_file_path],
       FileEvent.executeRun ["sudo", "chmod", file_mode, tmp_file_path],
       FileEvent.executeRun ["sudo", "mv", tmp_file_path, destination]]

/-- Declared parameters of `MultipassInstance.delete` besides `self`
(multipass_instance.py line 94): only `purge`. -/
def MultipassInstance.delete_params : List String := ["purge"]

/-- Model of `MultipassInstance.is_target_file`: the method is inherited
from `Executor` (executor.py lines 129-137) with `check` defaulting to
`True`, and `self.execute_run` resolves to
`MultipassInstance.execute_run`, which discards the `test -f` vector it
is passed. -/
def MultipassInstance.is_target_file (world : List String → CompletedProcess)
    (multipass_path name target : String) : Except PyErr Bool :=
  match (MultipassInstance.execute_run world multipass_path name
      ["test", "-f", target] true).2 with
  | Except.error e => Except.error e
  | Except.ok proc => Except.ok (proc.returncode == 0)

/-- Model of `MultipassInstance.is_target_directory`, inherited from
`Executor` (executor.py lines 119-127) like `is_target_file`. -/
def MultipassInstance.is_target_directory (world : List String → CompletedProcess)
    (multipass_path name target : String) : Except PyErr Bool :=
  match (MultipassInstance.execute_run world multipass_path name
      ["test", "-d", target] true).2 with
  | Except.error e => Except.error e
  | Except.ok proc => Except.ok (proc.returncode == 0)

/-- Kind of a host filesystem path, as seen by `pathlib.Path.is_file` /
`is_dir`. -/
inductive HostPathKind where
  | file
  | directory
  | absent
deriving DecidableEq, Repr

/-- Observable steps of `sync_to` / `sync_from`. -/
inductive TransferEvent where
  | hostMkdirParent (ofPath : String)
  | multipassTransfer (source destination : String)
  | naiveSyncFrom (source destination : String)
  | naiveSyncTo (source destination : String)
deriving DecidableEq, Repr

/-- Model of `MultipassInstance.sync_to` (multipass_instance.py lines
290-319): dispatch on the host `source` — single-file transfer if it is
a file, recursive sync if a directory, otherwise raise
`FileNotFoundError(f"Source {source} not found.")` before doing
anything.  Modelled from the spec: `multipass.transfer` and
`naive_directory_sync_to` are missing from src (only these callers are
present); they are recorded as the transfer steps of spec sections 4.1
and 4.2. -/
def MultipassInstance.sync_to (hostKind : String → HostPathKind)
    (name source destination : String) : Except PyErr (List TransferEvent) :=
  match hostKind source with
  | HostPathKind.file =>
      Except.ok [TransferEvent.hostMkdirParent destination,
                 TransferEvent.multipassTransfer source (name ++ ":" ++ destination)]
  | HostPathKind.directory =>
      Except.ok [TransferEvent.naiveSyncTo source destination]
  | HostPathKind.absent =>
      Except.error (PyErr.fileNotFoundError ("Source " ++ source ++ " not found."))

/-- Model of `MultipassInstance.sync_from` (multipass_instance.py lines
259-288): dispatch through the inherited remote predicates
`is_target_file` / `is_target_directory`, falling through to
`FileNotFoundError(f"Source {source} not found.")`.  Modelled from the
spec: `multipass.transfer` and `naive_directory_sync_from` are missing
from src and recorded as transfer steps as in `sync_to`. -/
def MultipassInstance.sync_from (world : List String → CompletedProcess)
    (multipass_path name source destination : String) :
    Except PyErr (List TransferEvent) :=
  match MultipassInstance.is_target_file world multipass_path name source with
  | Except.error e => Except.error e
  | Except.ok true =>
      Except.ok [TransferEvent.hostMkdirParent destination,
                 TransferEvent.multipassTransfer (name ++ ":" ++ source) destination]
  | Except.ok false =>
    match MultipassInstance.is_target_directory world multipass_path name source with
    | Except.error e => Except.error e
    | Except.ok true => Except.ok [TransferEvent.naiveSyncFrom source destination]
    | Except.ok false =>
        Except.error (PyErr.fileNotFoundError ("Source " ++ source ++ " not found."))

/-- Backend operations the provider can perform on an instance. -/
inductive BackendOp where
  | stopInstance
  | deleteForce
deriving DecidableEq, Repr

/-- State record for a multipass instance as reported by the backend. -/
structure MpInstanceState where
  status : String
deriving DecidableEq, Repr

/-- Modelled from the spec: `MultipassInstance.get_state` is missing from
src (only its callers `exists` and `is_running` are present); per spec
section 6 the backend reports instance existence and state via its info
query, so the model takes the current backend report directly: the
instance's state record, or `none` when the instance does not exist. -/
def MultipassInstance.get_state (world : Option MpInstanceState) :
    Option MpInstanceState :=
  world

/-- Model of `MultipassInstance.exists` (multipass_instance.py lines
145-150): the instance exists when `get_state()` is not `None`. -/
def MultipassInstance.exists_ (world : Option MpInstanceState) : Bool :=
  (MultipassInstance.get_state world).isSome

/-- Model of `MultipassInstance.is_running` (multipass_instance.py lines
187-196): `False` when `get_state()` is `None`, otherwise whether the
reported status equals `"Running"`. -/
def MultipassInstance.is_running (world : Option MpInstanceState) : Bool :=
  match MultipassInstance.get_state world with
  | none => false
  | some st => st.status == "Running"

/-- Model of `MultipassInstance.stop` (multipass_instance.py lines
248-250): it forwards with keyword `instance_name` to `Multipass.stop`,
whose declared keyword parameters in src are `instance` and `time`
(multipass.py line 193), so keyword binding raises TypeError; on a
successful binding the backend stop would be recorded. -/
def MultipassInstance.stop_call : List BackendOp × Except PyErr Unit :=
  match bindKeywords Multipass.stop_params ["instance_name"] with
  | Except.error e => ([], Except.error e)
  | Except.ok _ => ([BackendOp.stopInstance], Except.ok ())

/-! ## Multipass provider (src/craft_providers/multipass/multipass_provider.py) -/

/-- Observable steps of the provider's instance setup. -/
inductive LxdEvent where
  | compatSetup
  | deleteForce
  | launch
deriving DecidableEq, Repr

/-- Lifecycle state of the instance handle during setup: whether the
instance currently exists remotely, and whether the current incarnation
was launched by this setup call. -/
structure LifecycleState where
  present : Bool
  launchedFresh : Bool
deriving DecidableEq, Repr

/-- Model of `MultipassProvider._setup_existing_instance`
(multipass_provider.py lines 134-146): run the image compatibility setup
(`self.image_configuration.setup`, whose `images` module is missing from
src and is abstracted into its outcome `compat`: `none` for success,
`some reason` for `CompatibilityError(reason)`).  On a compatibility
error with `auto_clean` set, log and `delete(force=True)` the instance;
otherwise re-raise the error. -/
def setup_existing_instance (auto_clean : Bool) (compat : Option String)
    (inst : LifecycleState) : List LxdEvent × Except PyErr LifecycleState :=
  match compat with
  | none => ([LxdEvent.compatSetup], Except.ok inst)
  | some reason =>
    if auto_clean then
      ([LxdEvent.compatSetup, LxdEvent.deleteForce],
       Except.ok { inst with present := false })
    else
      ([LxdEvent.compatSetup], Except.error (PyErr.compatibilityError reason))

/-- Attribute names set on the provider object by
`MultipassProvider.__init__` (multipass_provider.py lines 74-87). -/
def MultipassProvider.attrs : List String :=
  ["auto_clean", "image_configuration", "image_name", "instance",
   "instance_cpus", "instance_disk_gb", "instance_mem_gb", "instance_name",
   "instance_stop_time_mins", "multipass"]

/-- Declared keyword parameters of `MultipassInstance.__init__` besides
`self` (multipass_instance.py lines 39-44): `name` and `multipass`. -/
def MultipassInstance.init_params : List String := ["name", "multipass"]

/-- Model of the `MultipassInstance(...)` construction inside
`_setup_instance` (multipass_provider.py lines 162-168): evaluate the
keyword argument expressions left to right — each an attribute read on
the provider — then bind the keywords `instance_name`, `cpus`, `disk`,
`image`, `multipass` against src's `MultipassInstance.__init__`.  The
read of `self.instance_disk` raises AttributeError, since the
provider's `__init__` sets `instance_disk_gb` and never `instance_disk`;
had it succeeded, the keyword binding would raise TypeError, since none
of the five keywords matches `name` or `multipass`. -/
def construct_multipass_instance : Except PyErr Unit := do
  let _ ← getattr_ MultipassProvider.attrs "instance_name"
  let _ ← getattr_ MultipassProvider.attrs "instance_cpus"
  let _ ← getattr_ MultipassProvider.attrs "instance_disk"
  let _ ← getattr_ MultipassProvider.attrs "image_name"
  let _ ← getattr_ MultipassProvider.attrs "multipass"
  bindKeywords MultipassInstance.init_params
    ["instance_name", "cpus", "disk", "image", "multipass"]

/-- Model of `MultipassProvider._setup_instance` (multipass_provider.py
lines 148-182): construct the LXD instance handle, construct the
`MultipassInstance` (lines 162-168) — which raises before the existence
check, see `construct_multipass_instance` — then, were that reachable:
if the instance exists, run `_setup_existing_instance` on it, and if it
does not exist afterwards (either originally or because the incompatible
instance was deleted), launch a new instance.  Modelled from the spec:
the LXD instance class used for the handle (and its
`exists`/`launch`/`delete` backend calls, together with the provider
attributes `project`/`remote`/`lxc` it is built from) is from a revision
missing from src, so the handle construction is effect-free, existence
is the `present` field of the lifecycle state and `launch` makes a fresh
instance present (spec section 4.5).  The `MultipassInstance` class is
in src and its construction is modelled faithfully. -/
def setup_instance (auto_clean : Bool) (compat : Option String)
    (existing : Bool) : List LxdEvent × Except PyErr LifecycleState :=
  let inst : LifecycleState := { present := existing, launchedFresh := false }
  match construct_multipass_instance with
  | Except.error e => ([], Except.error e)
  | Except.ok _ =>
    let step : List LxdEvent × Except PyErr LifecycleState :=
      if inst.present then setup_existing_instance auto_clean compat inst
      else ([], Except.ok inst)
    match step with
    | (tr, Except.error e) => (tr, Except.error e)
    | (tr, Except.ok inst1) =>
      if inst1.present then (tr, Except.ok inst1)
      else (tr ++ [LxdEvent.launch], Except.ok { present := true, launchedFresh := true })

/-- Model of `MultipassProvider.teardown` (multipass_provider.py lines
225-240): return immediately when no instance handle is set or the
instance does not exist; stop the instance when it is running; when
`clean`, call `self.instance.delete(force=True)` — whose keyword `force`
does not bind against `MultipassInstance.delete`'s declared parameter
`purge` (multipass_instance.py line 94), raising TypeError.  Returns the
backend operations performed and the overall outcome. -/
def teardown (world : Option MpInstanceState) (instanceIsSet clean : Bool) :
    List BackendOp × Except PyErr Unit :=
  if !instanceIsSet then ([], Except.ok ())
  else if !MultipassInstance.exists_ world then ([], Except.ok ())
  else
    match (if MultipassInstance.is_running world then MultipassInstance.stop_call
           else ([], Except.ok ())) with
    | (ops, Except.error e) => (ops, Except.error e)
    | (ops, Except.ok _) =>
      if clean then
        match bindKeywords MultipassInstance.delete_params ["force"] with
        | Except.error e => (ops, Except.error e)
        | Except.ok _ => (ops ++ [BackendOp.deleteForce], Except.ok ())
      else (ops, Except.ok ())

/-! ## Multipass installer (src/craft_providers/multipass/multipass_installer.py) -/

/-- Version gate of `MultipassInstaller._ensure_supported_version`
(multipass_installer.py lines 76-82) applied to the components of the
reported version string: take components 0 and 1 (direct indexing, so a
missing component raises IndexError), join them as
`major_minor = "c0.c1"`, and reject when `float(major_minor) < 1.5`.
Python's `float` parses the decimal string to the nearest IEEE double
(ties to even), which is a monotone map, so `float("c0.c1") < 1.5`
holds exactly when the exact decimal value `x = c0 + c1 / 10 ^ len(c1)`
is below the smallest real that rounds to at least 1.5.  That threshold
is the midpoint `1.5 - 2 ^ (-53)` between 1.5 (whose 52-bit mantissa is
even) and its predecessor `1.5 - 2 ^ (-52)` (odd mantissa): anything
strictly below the midpoint rounds down below 1.5, and the midpoint
itself ties up to the even 1.5.  Clearing denominators,
`x < 1.5 - 2 ^ (-53)` becomes the exact integer test below, faithful to
the double comparison for every digit count. -/
def version_gate : List String → Except PyErr Unit
  | c0 :: c1 :: _ =>
    (match pyParseNat c0, pyParseNat c1 with
     | some major, some minor =>
       if 2 ^ 54 * (major * 10 ^ c1.length + minor) <
           (3 * 2 ^ 53 - 2) * 10 ^ c1.length then
         Except.error (PyErr.multipassInstallerError
           ("version " ++ c0 ++ "." ++ c1 ++ " unsupported (must be >= 1.5)"))
       else Except.ok ()
     | _, _ => Except.error (PyErr.valueError "could not convert string to float"))
  | _ => Except.error (PyErr.indexError "list index out of range")

/-- Model of `MultipassInstaller._ensure_supported_version`
(multipass_installer.py lines 54-82) on the decoded stdout of
`multipass version`: whitespace-split it, require exactly 4 tokens
(like `multipass 1.5.0 multipassd 1.5.0`), dot-split token 1 into
version components and run the version gate.  The preceding
`_install_wait_ready` poll only sleeps until the daemon answers and has
no other observable effect, so it is not modelled. -/
def ensure_supported_version (version_output : String) : Except PyErr Unit :=
  let output_split := pySplitWhitespace version_output
  if output_split.length ≠ 4 then
    Except.error (PyErr.multipassInstallerError
      ("unable to parse version output " ++ version_output))
  else
    version_gate (pySplitDot ((output_split.get? 1).getD ""))

/-! ## Concrete worlds used by witnesses and counterexamples -/

/-- Remote world in which every command exits 0 with empty output. -/
def worldAllOk : List String → CompletedProcess :=
  fun _ => { returncode := 0, stdout := "" }

/-- Remote world in which every command exits 1 with empty output. -/
def worldAllFail : List String → CompletedProcess :=
  fun _ => { returncode := 1, stdout := "" }

/-- Poller world that always reports a starting system (exit 1). -/
def pollNeverReady : Nat → CompletedProcess :=
  fun _ => { returncode := 1, stdout := "starting" }

/-- Poller world that immediately reports a running system. -/
def pollReadyNow : Nat → CompletedProcess :=
  fun _ => { returncode := 0, stdout := "running" }

/-- Sync world whose remote commands all succeed but whose consumer tar
process exits with code 2. -/
def syncConsumerFails : SyncWorld :=
  { remoteRun := worldAllOk, consumerReturncode := 2 }

end CraftProviders

namespace CraftProviders

/-! ## Helper lemmas for the readiness poller -/

/-- When no attempt ever succeeds, the poll loop consumes its entire fuel,
performing one attempt per unit of fuel, and returns normally. -/
theorem wait_loop_exhausts (world : Nat → CompletedProcess)
    (h : ∀ i, system_ready_attempt world i = false) :
    ∀ fuel attempt, wait_for_system_ready_loop world attempt fuel = (attempt + fuel, false) := by
  intro fuel
  induction fuel with
  | zero => intro a; simp [wait_for_system_ready_loop]
  | succ n ih =>
    intro a
    rw [wait_for_system_ready_loop, h a]
    simp only [Bool.false_eq_true, if_false, ih (a + 1)]
    congr 1
    omega

/-- When attempt `k` is the first success, the poll loop stops right after
performing it. -/
theorem wait_loop_early (world : Nat → CompletedProcess) :
    ∀ fuel attempt k, attempt ≤ k → k < attempt + fuel →
    system_ready_attempt world k = true →
    (∀ i, attempt ≤ i → i < k → system_ready_attempt world i = false) →
    wait_for_system_ready_loop world attempt fuel = (k + 1, true) := by
  intro fuel
  induction fuel with
  | zero => intro a k h1 h2 _ _; omega
  | succ n ih =>
    intro a k h1 h2 h3 h4
    by_cases hak : a = k
    · subst hak
      rw [wait_for_system_ready_loop, h3]
      simp
    · have hlt : a < k := lt_of_le_of_ne h1 hak
      rw [wait_for_system_ready_loop, h4 a (le_refl a) hlt]
      simp only [Bool.false_eq_true, if_false]
      exact ih (a + 1) k (by omega) (by omega) h3 (fun i hi1 hi2 => h4 i (by omega) hi2)

/-! ## Claims -/

/-- Claim C1 (code bug): the claimed auto-clean flow — delete the
incompatible existing instance then launch a fresh one, or propagate the
`CompatibilityError` when auto-clean is disabled — is written in
`_setup_existing_instance` and the tail of `_setup_instance`, but it is
unreachable: the `MultipassInstance(...)` construction at
multipass_provider.py lines 162-168 raises AttributeError on
`self.instance_disk` (the provider's `__init__` sets `instance_disk_gb`,
never `instance_disk`) before the existence check, with or without
auto-clean and whatever the compatibility outcome; and even past that
read, none of its keywords would bind src's
`MultipassInstance.__init__(*, name, multipass)`. -/
theorem setup_instance_construction_raises :
    setup_instance true (some "tag mismatch") true =
      ([], Except.error (PyErr.attributeError "instance_disk"))
    ∧ setup_instance false (some "tag mismatch") true =
      ([], Except.error (PyErr.attributeError "instance_disk"))
    ∧ setup_instance true none true =
      ([], Except.error (PyErr.attributeError "instance_disk"))
    ∧ bindKeywords MultipassInstance.init_params
        ["instance_name", "cpus", "disk", "image", "multipass"] =
      Except.error (PyErr.typeError "unexpected keyword argument") :=
  ⟨rfl, rfl, rfl, rfl⟩

/-- Claim C2: for every executor, if reading `/etc/craft-image.conf` fails
(the remote cat exits non-zero), `load_craft_config` returns the
never-configured result `None` rather than propagating the command
failure as an error. -/
theorem load_craft_config_read_failure_gives_none {α : Type}
    (yamlLoad : String → Option α) (world : List String → CompletedProcess)
    (h : (world ["cat", "/etc/craft-image.conf"]).returncode ≠ 0) :
    load_craft_config yamlLoad world = Except.ok none := by
  unfold load_craft_config Executor.execute_run
  simp [h]

/-- Witness for C2, over the world in which every command exits 1. -/
theorem load_craft_config_read_failure_witness :
    load_craft_config (fun s => some s) worldAllFail = Except.ok none :=
  load_craft_config_read_failure_gives_none (fun s => some s) worldAllFail (by decide)

/-- Claim C3 (code bug): the path predicates return `True` when the remote
test exits 0, but because `execute_run` is invoked without `check=False`
(its declared default is `True`), a non-zero exit of the remote test —
exactly what a nonexistent path produces — raises
`subprocess.CalledProcessError` instead of returning `False`,
contradicting the methods' own docstrings. -/
theorem is_target_predicates_raise_on_nonzero_exit :
    Executor.is_target_directory worldAllOk "/etc" = Except.ok true
    ∧ Executor.is_target_file worldAllOk "/etc/hostname" = Except.ok true
    ∧ Executor.is_target_directory worldAllFail "/nonexistent" =
        Except.error (PyErr.calledProcessError 1 ["test", "-d", "/nonexistent"])
    ∧ Executor.is_target_file worldAllFail "/nonexistent" =
        Except.error (PyErr.calledProcessError 1 ["test", "-f", "/nonexistent"]) :=
  ⟨rfl, rfl, rfl, rfl⟩

/-- Claim C4 (code bug): the blocking execute operation of the multipass
executor does not run the caller-supplied argument vector: the body of
`MultipassInstance.execute_run` reassigns `command` to the fixed list
`sudo -H /root --` before forwarding it, so the host argv is the same
fixed vector whatever the caller passed. -/
theorem execute_run_discards_caller_command :
    (MultipassInstance.execute_run worldAllOk "multipass" "craft-vm"
        ["echo", "hi"] true).1 =
      ["multipass", "exec", "craft-vm", "--", "sudo", "-H", "/root", "--"]
    ∧ (MultipassInstance.execute_run worldAllOk "multipass" "craft-vm"
        ["systemctl", "is-system-running"] true).1 =
      ["multipass", "exec", "craft-vm", "--", "sudo", "-H", "/root", "--"] :=
  ⟨rfl, rfl⟩

/-- Claim C5 (code bug): `create_file` never reaches its staging transfer,
chown/chmod, or atomic move: its staging path is computed by
`"/".join("/tmp", ...)`, a two-argument call to `str.join`, which raises
TypeError on every invocation before any file operation happens. -/
theorem create_file_raises_type_error :
    MultipassInstance.create_file "craft-vm" "/etc/hostname" "craft-host" "0644" 0 0 =
      Except.error (PyErr.typeError "join() takes exactly one argument")
    ∧ MultipassInstance.create_file "craft-vm" "/etc/craft-image.conf"
        "compatibility_tag: craft-buildd-image-v0" "0644" 0 0 =
      Except.error (PyErr.typeError "join() takes exactly one argument") :=
  ⟨rfl, rfl⟩

/-- Counterexample to claim C6 as stated: with every remote command
succeeding and the consumer tar process exiting with code 2, the sync
returns normally (`Except.ok`), so the non-zero consumer exit code is
not propagated to the caller as the result of the sync operation. -/
theorem sync_to_remote_ok_despite_consumer_failure :
    (directory_sync_to_remote syncConsumerFails "tar" "tar" "/src" "/dst" true).2 =
      Except.ok ()
    ∧ syncConsumerFails.consumerReturncode = 2 :=
  ⟨rfl, rfl⟩

/-- Claim C6 (amended): after wiring the archive producer's stdout to the
consumer's stdin and closing the producer's handle, the sync blocks
until the consumer process terminates, but then returns normally
whatever the consumer's exit code: neither the consumer's nor the
producer's exit code is checked or propagated. -/
theorem sync_to_remote_waits_but_ignores_exit_codes (world : SyncWorld)
    (host_tar_cmd target_tar_cmd source destination : String)
    (h1 : (world.remoteRun ["rm", "-rf", destination]).returncode = 0)
    (h2 : (world.remoteRun ["mkdir", "-p", destination]).returncode = 0) :
    directory_sync_to_remote world host_tar_cmd target_tar_cmd source destination true =
      ([SyncEvent.remoteRun ["rm", "-rf", destination],
        SyncEvent.remoteRun ["mkdir", "-p", destination],
        SyncEvent.hostPopen [host_tar_cmd, "cpf", "-", "-C", source, "."],
        SyncEvent.remotePopen [target_tar_cmd, "xpvf", "-", "-C", destination],
        SyncEvent.closeProducerStdout,
        SyncEvent.waitConsumer world.consumerReturncode],
       Except.ok ()) := by
  unfold directory_sync_to_remote Executor.execute_run
  simp [h1, h2]

/-- Witness for the amended C6, at the concrete world whose consumer exits
with code 2. -/
theorem sync_to_remote_waits_but_ignores_exit_codes_witness :
    directory_sync_to_remote syncConsumerFails "tar" "tar" "/src" "/dst" true =
      ([SyncEvent.remoteRun ["rm", "-rf", "/dst"],
        SyncEvent.remoteRun ["mkdir", "-p", "/dst"],
        SyncEvent.hostPopen ["tar", "cpf", "-", "-C", "/src", "."],
        SyncEvent.remotePopen ["tar", "xpvf", "-", "-C", "/dst"],
        SyncEvent.closeProducerStdout,
        SyncEvent.waitConsumer 2],
       Except.ok ()) :=
  sync_to_remote_waits_but_ignores_exit_codes syncConsumerFails "tar" "tar" "/src" "/dst"
    rfl rfl

/-- Claim C7 (code bug): `sync_to` on a nonexistent host source does raise
`FileNotFoundError` before any mutation, but `sync_from` on a
nonexistent remote source raises `subprocess.CalledProcessError` from
its `is_target_file` probe — whose remote command is the fixed sudo
vector and whose `check` defaults to `True` — instead of the
`FileNotFoundError` its docstring promises. -/
theorem sync_from_missing_source_wrong_error :
    MultipassInstance.sync_from worldAllFail "multipass" "craft-vm"
        "/nonexistent" "/tmp/out" =
      Except.error (PyErr.calledProcessError 1
        ["multipass", "exec", "craft-vm", "--", "sudo", "-H", "/root", "--"])
    ∧ MultipassInstance.sync_to (fun _ => HostPathKind.absent) "craft-vm"
        "/nonexistent" "/remote/dst" =
      Except.error (PyErr.fileNotFoundError "Source /nonexistent not found.") :=
  ⟨rfl, rfl⟩

/-- Claim C8: against a backend whose init-system status never reports
running or degraded, the system-readiness poll performs exactly the
configured number of attempts and returns normally (first conjunct), and
a status of running or degraded with exit code 0 terminates the loop
early as success, right after the first successful attempt (second
conjunct). -/
theorem wait_for_system_ready_attempt_budget :
    (∀ (world : Nat → CompletedProcess) (n : Nat),
      (∀ i, system_ready_attempt world i = false) →
      wait_for_system_ready world n = (n, false))
    ∧ (∀ (world : Nat → CompletedProcess) (n k : Nat),
      k < n → system_ready_attempt world k = true →
      (∀ i, i < k → system_ready_attempt world i = false) →
      wait_for_system_ready world n = (k + 1, true)) := by
  constructor
  · intro world n h
    have := wait_loop_exhausts world h n 0
    simpa [wait_for_system_ready] using this
  · intro world n k hk hs hb
    exact wait_loop_early world n 0 k (Nat.zero_le k) (by omega) hs
      (fun i _ hi => hb i hi)

/-- Witness for C8: the never-ready world exhausts the default budget of
120 attempts and returns normally; the immediately-ready world stops
after one attempt. -/
theorem wait_for_system_ready_attempt_budget_witness :
    wait_for_system_ready pollNeverReady 120 = (120, false)
    ∧ wait_for_system_ready pollReadyNow 120 = (1, true) :=
  ⟨wait_for_system_ready_attempt_budget.1 pollNeverReady 120 (fun _ => rfl),
   wait_for_system_ready_attempt_budget.2 pollReadyNow 120 0 (by norm_num) rfl
     (fun i hi => absurd hi (Nat.not_lt_zero i))⟩

/-- Claim C9 (code bug): teardown on an instance that does not exist is
indeed a no-op with no backend operation, but the very first
`teardown(clean=True)` on an existing instance raises TypeError: it
calls `self.instance.delete(force=True)` while
`MultipassInstance.delete` only declares the parameter `purge` (and on a
running instance the earlier `stop` call already fails the same way, as
`Multipass.stop` declares `instance`, not `instance_name`), so teardown
is not the never-raising idempotent operation claimed. -/
theorem teardown_first_call_raises_type_error :
    teardown none true true = ([], Except.ok ())
    ∧ teardown (some { status := "Stopped" }) true true =
        ([], Except.error (PyErr.typeError "unexpected keyword argument"))
    ∧ teardown (some { status := "Running" }) true true =
        ([], Except.error (PyErr.typeError "unexpected keyword argument")) :=
  ⟨rfl, rfl, rfl⟩

/-- Counterexample to claim C10 as stated: the reported version `1.51` has
a minor component of two digits (51, greater than 5 in version order),
yet the version gate accepts it — `float("1.51") = 1.51` is not below
1.5 — so the gate does not reject every `1.m` with a two-or-more-digit
minor. -/
theorem version_gate_accepts_two_digit_minor :
    ensure_supported_version "multipass 1.51 multipassd 1.51" = Except.ok () :=
  rfl

/-- Claim C10 (amended): the version gate converts the major.minor prefix
to a decimal number (via `float`) and rejects values below 1.5, so for
every reported version `1.m` whose minor component `m` has two to
fifteen digits and whose decimal reading places `1.m` below 1.5 (that
is, `2 * m < 10 ^ len(m)`, equivalently the leading digit of `m` is 0-4,
e.g. `1.10`), the gate raises `MultipassInstallerError` as unsupported
even though the minor version is greater than 5 in version order; minors
with leading digit 5-9 (such as `51`) pass the gate, as do longer minors
whose value rounds up to exactly 1.5 as a double (the digit bound keeps
the decimal reading clear of the rounding threshold `1.5 - 2 ^ (-53)`). -/
theorem version_gate_rejects_decimal_below_threshold (c1 : String) (v : Nat)
    (h1 : pyParseNat c1 = some v) (hlen : 2 ≤ c1.length)
    (hlen15 : c1.length ≤ 15) (hlt : 2 * v < 10 ^ c1.length) :
    version_gate ["1", c1] =
      Except.error (PyErr.multipassInstallerError
        ("version " ++ "1" ++ "." ++ c1 ++ " unsupported (must be >= 1.5)")) := by
  have hcond : 2 ^ 54 * (1 * 10 ^ c1.length + v) <
      (3 * 2 ^ 53 - 2) * 10 ^ c1.length := by
    have ht : (10 : Nat) ^ c1.length ≤ 1000000000000000 := by
      calc (10 : Nat) ^ c1.length ≤ 10 ^ 15 := Nat.pow_le_pow_right (by norm_num) hlen15
        _ = 1000000000000000 := by norm_num
    have h54 : (2 : Nat) ^ 54 = 18014398509481984 := by norm_num
    have hsub : (3 : Nat) * 2 ^ 53 - 2 = 27021597764222974 := by norm_num
    rw [h54, hsub]
    omega
  simp only [version_gate]
  rw [show pyParseNat "1" = some 1 from rfl, h1]
  show (if 2 ^ 54 * (1 * 10 ^ c1.length + v) < (3 * 2 ^ 53 - 2) * 10 ^ c1.length then
      Except.error (PyErr.multipassInstallerError
        ("version " ++ "1" ++ "." ++ c1 ++ " unsupported (must be >= 1.5)"))
    else Except.ok ()) =
    Except.error (PyErr.multipassInstallerError
      ("version " ++ "1" ++ "." ++ c1 ++ " unsupported (must be >= 1.5)"))
  rw [if_pos hcond]

/-- Witness for the amended C10, at the two-digit minor `10`: the gate
rejects version `1.10` as unsupported. -/
theorem version_gate_rejects_decimal_below_threshold_witness :
    version_gate ["1", "10"] =
      Except.error (PyErr.multipassInstallerError
        "version 1.10 unsupported (must be >= 1.5)") :=
  version_gate_rejects_decimal_below_threshold "10" 10 rfl (by decide) (by decide)
    (by decide)

end CraftProviders
